import Mathlib

/-!
Verification of the FragRouter fragment-dispatch engine (src/frag.js) against
its natural-language specification.

The JavaScript source is shallowly embedded below.  Handlers are identified by
natural numbers; invoking a handler is modelled as returning a `DispatchResult`
value recording which handler was called, with which `this` context and which
positional arguments.  The module-level mutable variables `history` and
`historyPosition` are threaded explicitly as a `HistState`.
-/

/-- Internal history state: the module-level variables `history` (array of
visited fragments, without the pound sign) and `historyPosition` (cursor). -/
structure HistState where
  history : List String
  historyPosition : Nat
deriving DecidableEq, Repr

/-- The empty initial history: `var history = []; var historyPosition = 0;`. -/
def hist0 : HistState := ⟨[], 0⟩

/-- A value stored in a route table: a handler function (identified by a
number), a nested table, or any other JavaScript value (characterised only by
its truthiness, which is all `handleRoute` inspects before throwing). -/
inductive RouteVal where
  | handler (id : Nat)
  | table (entries : List (String × RouteVal))
  | other (truthy : Bool)

/-- A route table: a JavaScript object, modelled as an association list. -/
abbrev Table := List (String × RouteVal)

/-- JavaScript truthiness test used by `!handlers[request.route]`: functions
and objects are always truthy; `other` carries its own truthiness (this also
covers `null`, which is falsy even though `typeof null === 'object'`). -/
def RouteVal.falsy : RouteVal → Bool
  | RouteVal.other t => !t
  | _ => false

/-- Property lookup `tbl[key]` on the object modelled as an association
list; `none` plays the role of `undefined`. -/
def lookupVal : Table → String → Option RouteVal
  | [], _ => none
  | (k, v) :: rest, key => if k = key then some v else lookupVal rest key

/-- Property deletion `delete tbl[key]`. -/
def removeKey : Table → String → Table
  | [], _ => []
  | (k, v) :: rest, key =>
    if k = key then removeKey rest key else (k, v) :: removeKey rest key

/-- The Request object (`function Request(path, route, parameters)`).
`handleRoute` always constructs it as `new Request(path)`, so `route` and
`parameters` start out `undefined` (`none` here); `handleRoute` later assigns
`request.route` and `request.params` (note: `params`, not the documented
`parameters` property, which the source never assigns).  `hash` is
`window.location.hash.slice(1)` and `historySnapshot` is `history.slice(0)`
taken at construction time. -/
structure Request where
  path : List String
  route : Option String
  parameters : Option (List String)
  params : Option (List String)
  hash : String
  historySnapshot : List String
deriving DecidableEq, Repr

/-- Observable outcome of one `handleRoute` call: exactly one terminal
invocation happens (or a configuration error is thrown).
`handlerCall id ctx args` is `handler.apply(request, args)`;
`notFoundCall ctx arg` records whether the not-found handler was given the
request as its `this` (`ctx = some _` for `.call(request)`, `none` for a plain
call, whose `this` is not the request) and what argument array it received.
`configError` is the thrown `Bad handler configuration` error. -/
inductive DispatchResult where
  | handlerCall (id : Nat) (ctx : Request) (args : List String)
  | notFoundCall (ctx : Option Request) (arg : Option (List String))
  | configError (hash : String)
deriving DecidableEq, Repr

/-- Projection: which handler was invoked, with which positional arguments. -/
def calledHandler : DispatchResult → Option (Nat × List String)
  | DispatchResult.handlerCall id _ args => some (id, args)
  | _ => none

/-- Projection for not-found invocations: whether the request context was the
invocation target, and the argument the handler received. -/
def calledNotFound : DispatchResult → Option (Bool × Option (List String))
  | DispatchResult.notFoundCall ctx arg => some (ctx.isSome, arg)
  | _ => none

/-- Projection: the `this` context the matched handler was invoked with. -/
def calledCtx : DispatchResult → Option Request
  | DispatchResult.handlerCall _ ctx _ => some ctx
  | _ => none

/-- JavaScript `hash.split('/')` on the character list, accumulator-style:
the empty string splits to `[""]`, and a trailing separator yields a final
empty segment, exactly as in JavaScript. -/
def splitSlashAux : List Char → List Char → List String
  | [], acc => [String.mk acc.reverse]
  | c :: cs, acc =>
    if c = '/' then String.mk acc.reverse :: splitSlashAux cs []
    else splitSlashAux cs (c :: acc)

/-- JavaScript `s.split('/')`. -/
def splitSlash (s : String) : List String := splitSlashAux s.data []

/-- JavaScript `xs.join('/')`. -/
def joinSlash : List String → String
  | [] => ""
  | [x] => x
  | x :: xs => x ++ "/" ++ joinSlash xs

/-- `extractPath(hash)` from the source: `hash = hash || window.location
.hash.slice(1); return hash.split('/')`.  The only falsy string is the empty
one, and an omitted argument is modelled by passing it as `""`. -/
def extractPath (hash : String) (windowHash : String) : List String :=
  splitSlash (if hash = "" then windowHash else hash)

/-- The root branch of `handleRoute` (source lines 318-326): if `handlers._`
is a function it is applied to the request with no arguments, otherwise the
not-found handler is invoked with the request as `this` and no arguments. -/
def rootDispatch (tbl : Table) (req : Request) (st1 : HistState) :
    DispatchResult × HistState :=
  match lookupVal tbl "_" with
  | some (RouteVal.handler id) => (DispatchResult.handlerCall id req [], st1)
  | _ => (DispatchResult.notFoundCall (some req) none, st1)

/-- `handleRoute(path, handlers)` from the source.  `wh` is the current
`window.location.hash.slice(1)` (constant during one cycle).  Faithful
details: the history push and the `new Request(path)` happen on every
(including recursive) invocation; `path.shift()` mutates the array shared
with `request.path`, so the request seen by a matched handler carries the
remainder only; the no-entry branch calls `notFoundHandler(path)` as a plain
call (no `this` binding) with the shifted remainder as its single argument. -/
def handleRoute (wh : String) : List String → Option Table → HistState →
    DispatchResult × HistState
  | path, none, st =>
    let st1 : HistState := ⟨st.history ++ [wh], st.history.length⟩
    (DispatchResult.notFoundCall (some ⟨path, none, none, none, wh, st1.history⟩) none, st1)
  | [], some tbl, st =>
    let st1 : HistState := ⟨st.history ++ [wh], st.history.length⟩
    rootDispatch tbl ⟨[], none, none, none, wh, st1.history⟩ st1
  | first :: rest, some tbl, st =>
    let st1 : HistState := ⟨st.history ++ [wh], st.history.length⟩
    let req : Request := ⟨first :: rest, none, none, none, wh, st1.history⟩
    if first = "" then rootDispatch tbl req st1
    else
      let req2 : Request := { req with path := rest, route := some first, params := some rest }
      match lookupVal tbl first with
      | none => (DispatchResult.notFoundCall none (some rest), st1)
      | some v =>
        if v.falsy then (DispatchResult.notFoundCall none (some rest), st1)
        else
          match v with
          | RouteVal.handler id => (DispatchResult.handlerCall id req2 rest, st1)
          | RouteVal.table sub => handleRoute wh rest (some sub) st1
          | RouteVal.other _ => (DispatchResult.configError wh, st1)

/-- One dispatch cycle as triggered by `window.onhashchange`:
`handleRoute(extractPath(), handlers)` with the current window hash `wh`. -/
def dispatch (wh : String) (handlers : Table) (st : HistState) :
    DispatchResult × HistState :=
  handleRoute wh (extractPath "" wh) (some handlers) st

/-- Scenario table of spec section 8: `{_: f0, pages: f1, about: f2}`
with f0, f1, f2 numbered 0, 1, 2 (the `404` key already extracted). -/
def tbl1 : Table :=
  [("_", RouteVal.handler 0), ("pages", RouteVal.handler 1), ("about", RouteVal.handler 2)]

/-- Nested scenario table `{clients: {_: g0, list: g1}}` with g0 = 20,
g1 = 21. -/
def tblNested : Table :=
  [("clients", RouteVal.table [("_", RouteVal.handler 20), ("list", RouteVal.handler 21)])]

/-- The handler id a table's default key holds, when it holds a handler
(mirrors the source's `typeof handlers._ === 'function'` test). -/
def underscoreFn (tbl : Table) : Option Nat :=
  match lookupVal tbl "_" with
  | some (RouteVal.handler id) => some id
  | _ => none

/-- A host navigation instruction: `window.location.replace(...)` (hidden
from the browser's native history) or `window.location.assign(...)` (a push,
visible in native history).  Only the new fragment is recorded. -/
inductive NavAction where
  | replace (frag : String)
  | assign (frag : String)
deriving DecidableEq, Repr

/-- The fragment a navigation instruction writes. -/
def NavAction.fragment : NavAction → String
  | NavAction.replace f => f
  | NavAction.assign f => f

/-- `true` for the hidden `replace` navigation, `false` for the `assign`
push. -/
def NavAction.isReplace : NavAction → Bool
  | NavAction.replace _ => true
  | NavAction.assign _ => false

/-- The identifier read in the guard of `Request.prototype.back`
(source line 231): `if (!historyPositon) { return; }`. -/
def backGuardIdent : String := "historyPositon"

/-- The module-scope variable names the tracker declares (source lines
165-166): `var history = []; var historyPosition = 0;`. -/
def declaredVars : List String := ["history", "historyPosition"]

/-- Method names defined on `Request.prototype` in the source.  The forward
method is defined at line 244 under the name `forwared`; there is no
`forward` property, so `request.forward()` is a TypeError. -/
def requestMethods : List String := ["back", "forwared", "go"]

/-- Whether `Request.prototype` has a method of the given name. -/
def requestHasMethod (name : String) : Bool := requestMethods.contains name

/-- Outcome of a `back()` call: a thrown ReferenceError (reading an
undeclared identifier), a silent return, or a navigation together with the
updated history state. -/
inductive BackResult where
  | refError (ident : String)
  | noop
  | nav (st : HistState) (act : NavAction)
deriving DecidableEq, Repr

/-- `Request.prototype.back` from the source.  Its guard reads the
identifier `historyPositon`, which is not among the declared module
variables, so evaluating the guard throws a ReferenceError; the
navigate-and-decrement branch (kept here as the semantics the guard would
have if the identifier resolved to `historyPosition`) is unreachable. -/
def Request.back (st : HistState) : BackResult :=
  if declaredVars.contains backGuardIdent then
    if st.historyPosition = 0 then BackResult.noop
    else
      BackResult.nav ⟨st.history, st.historyPosition - 1⟩
        (NavAction.replace (st.history.getD (st.historyPosition - 1) "undefined"))
  else BackResult.refError backGuardIdent

/-- `Request.prototype.forwared` from the source (sic: the doc comment above
it names `Request.prototype.forward`, but the property assigned is
`forwared`): no-op when the cursor is at the last index, otherwise replace
the location with the entry at `cursor+1` and increment the cursor. -/
def Request.forwared (st : HistState) : HistState × Option NavAction :=
  if st.historyPosition + 1 = st.history.length then (st, none)
  else
    (⟨st.history, st.historyPosition + 1⟩,
     some (NavAction.replace (st.history.getD (st.historyPosition + 1) "undefined")))

/-- The second JavaScript argument of `go`: either an array of parameter
strings or some non-array value, characterised by its truthiness (an omitted
argument is `undefined`, a falsy non-array). -/
inductive GoSecondArg where
  | arr (xs : List String)
  | nonArray (truthy : Bool)
deriving DecidableEq, Repr

/-- `Request.prototype.go(location, params, hide)` from the source: when
`params` is not an array it is reassigned to `hide` and replaced by `[]`;
the written fragment is `location + '/' + params.join('/')`, via `replace`
when the effective `hide` is truthy and `assign` otherwise. -/
def Request.go (location : String) (params : GoSecondArg) (hide : Bool) : NavAction :=
  match params with
  | GoSecondArg.arr xs =>
    if hide then NavAction.replace (location ++ "/" ++ joinSlash xs)
    else NavAction.assign (location ++ "/" ++ joinSlash xs)
  | GoSecondArg.nonArray t =>
    if t then NavAction.replace (location ++ "/" ++ joinSlash [])
    else NavAction.assign (location ++ "/" ++ joinSlash [])

/-- Module-level state touched by `frag.start`: the `isRouting` flag, the
registered not-found handler (`none` is the built-in do-nothing default),
the history state, and a count of `window.onhashchange` assignments. -/
structure ModuleState where
  isRouting : Bool
  notFound : Option Nat
  hist : HistState
  listenerInstalls : Nat
deriving DecidableEq, Repr

/-- The module state right after loading frag.js. -/
def initialModule : ModuleState := ⟨false, none, hist0, 0⟩

/-- `frag.start(handlers)` from the source: returns the updated module
state, the (possibly mutated, `delete handlers['404']`) handlers table, and
the result of the immediate dispatch (`none` when the guard returned early).
Faithful detail: the source checks `this.isRouting` but never assigns `true`
to it, so the flag below is returned unchanged on every path. -/
def start (wh : String) (handlers : Table) (st : ModuleState) :
    ModuleState × Table × Option DispatchResult :=
  if st.isRouting then (st, handlers, none)
  else
    let step1 : Option Nat × Table :=
      match lookupVal handlers "404" with
      | some (RouteVal.handler id) => (some id, removeKey handlers "404")
      | _ => (st.notFound, handlers)
    let res := handleRoute wh (extractPath "" wh) (some step1.2) st.hist
    (⟨st.isRouting, step1.1, res.2, st.listenerInstalls + 1⟩, step1.2, some res.1)

/-- Modelled from the spec: the middleware chain (spec sections 4.3 and 4.5
steps 4-5) is absent from src/frag.js; only its contract is specified.  A
middleware function supplied to `add` is either callable — identified by a
number and by the error value (if any) it passes to its continuation — or a
non-callable value. -/
inductive MWVal where
  | fn (id : Nat) (contErr : Option String)
  | nonCallable

/-- Modelled from the spec: `add(fn)` appends `fn` if it is callable,
silently ignored otherwise (no error).  A registered middleware is kept as
its identifier paired with the error it will pass to its continuation. -/
def addMiddleware (v : MWVal) (chain : List (Nat × Option String)) :
    List (Nat × Option String) :=
  match v with
  | MWVal.fn id e => chain ++ [(id, e)]
  | MWVal.nonCallable => chain

/-- Modelled from the spec: `run` invokes each registered function in
registration order; a function calling its continuation with a non-empty
error aborts the chain.  Returns the ordered identifiers of the middleware
actually invoked, and the aborting error if any. -/
def runChain : List (Nat × Option String) → List Nat × Option String
  | [] => ([], none)
  | (id, e) :: rest =>
    match e with
    | some err => ([id], some err)
    | none =>
      let r := runChain rest
      (id :: r.1, r.2)

/-- Modelled from the spec: dispatcher steps 4-5 — run the middleware chain
against the context; only on successful completion resolve the route and
invoke the handler (so an aborted chain yields no handler invocation,
returned as `none`). -/
def dispatchWithMW (chain : List (Nat × Option String)) (wh : String)
    (handlers : Option Table) (st : HistState) :
    List Nat × Option (DispatchResult × HistState) :=
  let r := runChain chain
  match r.2 with
  | some _ => (r.1, none)
  | none => (r.1, some (handleRoute wh (extractPath "" wh) handlers st))

/-- Single-route table used to inspect the request context of a matched
handler (claim C3). -/
def tbl3 : Table := [("pages", RouteVal.handler 1)]

/-- Single-route table used to inspect not-found invocations (claim C4). -/
def tbl4 : Table := [("about", RouteVal.handler 2)]

/-- Table with a `404` entry used to exercise `frag.start` (claim C8). -/
def tbl8 : Table := [("_", RouteVal.handler 0), ("404", RouteVal.handler 9)]

theorem rootDispatch_spec (tbl : Table) (req : Request) (st1 : HistState) :
    calledHandler (rootDispatch tbl req st1).1 =
      (underscoreFn tbl).map (fun id => (id, ([] : List String))) ∧
    (underscoreFn tbl = none →
      calledNotFound (rootDispatch tbl req st1).1 = some (true, none)) := by
  unfold rootDispatch underscoreFn
  cases h : lookupVal tbl "_" with
  | none => simp [calledHandler, calledNotFound]
  | some v =>
    cases v with
    | handler id => simp [calledHandler]
    | table entries => simp [calledHandler, calledNotFound]
    | other t => simp [calledHandler, calledNotFound]

theorem runChain_all_ok (chain : List (Nat × Option String))
    (h : ∀ p ∈ chain, p.2 = none) :
    runChain chain = (chain.map Prod.fst, none) := by
  induction chain with
  | nil => rfl
  | cons hd tl ih =>
    obtain ⟨id, e⟩ := hd
    have he : e = none := h (id, e) (List.mem_cons_self _ _)
    subst he
    have ih2 := ih (fun p hp => h p (List.mem_cons_of_mem _ hp))
    simp [runChain, ih2]

theorem runChain_abort (pre : List (Nat × Option String)) (id : Nat) (err : String)
    (post : List (Nat × Option String)) (h : ∀ p ∈ pre, p.2 = none) :
    runChain (pre ++ (id, some err) :: post) = (pre.map Prod.fst ++ [id], some err) := by
  induction pre with
  | nil => rfl
  | cons hd tl ih =>
    obtain ⟨i, e⟩ := hd
    have he : e = none := h (i, e) (List.mem_cons_self _ _)
    subst he
    have ih2 := ih (fun p hp => h p (List.mem_cons_of_mem _ hp))
    simp [runChain, ih2]

/-- C1: on the scenario table `{_: f0, pages: f1, about: f2}` the code
dispatches `""` to f0 with no arguments, `"pages/45"` to f1 with `"45"`,
`"pages/45/foo"` to f1 with `"45"` and `"foo"`, and `"about"` to f2 with no
arguments, invoking no other handler; but for `"missing"` the not-found
handler is called as a plain function (no request context) with the shifted
remainder `[]` as its argument, not with the string `"missing"` the claim
(and the source's own `setNotFoundHandler` documentation) promises. -/
theorem c1_scenario_eval :
    calledHandler (dispatch "" tbl1 hist0).1 = some (0, []) ∧
    calledHandler (dispatch "pages/45" tbl1 hist0).1 = some (1, ["45"]) ∧
    calledHandler (dispatch "pages/45/foo" tbl1 hist0).1 = some (1, ["45", "foo"]) ∧
    calledHandler (dispatch "about" tbl1 hist0).1 = some (2, []) ∧
    calledNotFound (dispatch "missing" tbl1 hist0).1 = some (false, some []) := by
  decide

/-- C2: for every table and every segment sequence that is empty or starts
with the empty string, resolution is the root case: the default key's
handler, when callable, is applied with zero arguments, and otherwise the
not-found handler is invoked (with the request as its target and no
argument); the nested table `{clients: {_: g0, list: g1}}` dispatches
`"clients"` to g0 with no arguments and `"clients/list"` to g1. -/
theorem c2_root_and_nested (tbl : Table) (path : List String) (st : HistState)
    (wh : String) (h : path = [] ∨ path.head? = some "") :
    (calledHandler (handleRoute wh path (some tbl) st).1 =
        (underscoreFn tbl).map (fun id => (id, ([] : List String))) ∧
      (underscoreFn tbl = none →
        calledNotFound (handleRoute wh path (some tbl) st).1 = some (true, none))) ∧
    calledHandler (dispatch "clients" tblNested hist0).1 = some (20, []) ∧
    calledHandler (dispatch "clients/list" tblNested hist0).1 = some (21, []) := by
  refine ⟨?_, by decide, by decide⟩
  rcases h with rfl | hh
  · exact rootDispatch_spec tbl _ _
  · cases path with
    | nil => simp at hh
    | cons first rest =>
      obtain rfl : first = "" := by simpa using hh
      exact rootDispatch_spec tbl _ _

theorem c2_root_and_nested_witness :
    (([] : List String) = [] ∨ ([] : List String).head? = some "") ∧
    calledHandler (handleRoute "w" [] (some [("_", RouteVal.handler 5)]) hist0).1 =
      (underscoreFn [("_", RouteVal.handler 5)]).map (fun id => (id, ([] : List String))) :=
  ⟨Or.inl rfl,
   (c2_root_and_nested [("_", RouteVal.handler 5)] [] hist0 "w" (Or.inl rfl)).1.1⟩

/-- C3: the request context a matched leaf handler actually receives.  For
table `{pages: f1}` and fragment `"pages/45"` the handler is invoked with
the context as its target and `["45"]` as positional arguments, and the
context's `route` is `"pages"`; but `path` is the mutated remainder `["45"]`
(not the full extracted sequence `["pages", "45"]`, since `path.shift()`
mutates the array shared with `request.path`) and `parameters` is still
`undefined` — the remainder was assigned to the undocumented `params`
property instead. -/
theorem c3_context_eval :
    (dispatch "pages/45" tbl3 hist0).1 =
      DispatchResult.handlerCall 1
        ⟨["45"], some "pages", none, some ["45"], "pages/45", ["pages/45"]⟩ ["45"] := by
  decide

/-- C4: when no table entry matches the first segment (fragment `"nope/x"`
against `{about: f2}`), the not-found handler is invoked WITHOUT the request
context as its target and with the remainder array `["x"]` as an extra
argument — refuting the claim's "with the request context as invocation
target"; the top-level root not-found (empty fragment, empty table) does
receive the context and no extra argument. -/
theorem c4_notfound_eval :
    calledNotFound (dispatch "nope/x" tbl4 hist0).1 = some (false, some ["x"]) ∧
    calledNotFound (dispatch "" ([] : Table) hist0).1 = some (true, none) := by
  decide

/-- C5: the history push sits inside `handleRoute`, which recurses once per
nested table level, so a single dispatch cycle for `"clients/list"` against
`{clients: {_: g0, list: g1}}` appends TWO identical entries (cursor 1), not
the single entry the claim states; a flat dispatch (`"about"` against the
scenario table) does append exactly one entry with cursor 0. -/
theorem c5_history_eval :
    (dispatch "clients/list" tblNested hist0).2 = ⟨["clients/list", "clients/list"], 1⟩ ∧
    (dispatch "about" tbl1 hist0).2 = ⟨["about"], 0⟩ := by
  decide

/-- C6: `Request.prototype.back` reads the identifier `historyPositon` in
its guard, which is not among the module's declared variables, so every call
— here with history `["a", "b"]` and cursor 1, where the claim expects a
navigation to `"a"` and a decrement — throws a ReferenceError instead. -/
theorem c6_back_eval :
    Request.back ⟨["a", "b"], 1⟩ = BackResult.refError "historyPositon" ∧
    declaredVars.contains backGuardIdent = false := by
  decide

/-- C7: `Request.prototype` carries no `forward` method (the source defines
it under the misspelled name `forwared`), and `back()` throws a
ReferenceError (the `historyPositon` typo), so back-then-forward cannot
restore the cursor; the `forwared` body itself is a no-op at the last index
and otherwise navigates to the entry at cursor+1 and increments. -/
theorem c7_forward_eval :
    requestHasMethod "forward" = false ∧
    Request.back ⟨["r1", "r2"], 1⟩ = BackResult.refError "historyPositon" ∧
    Request.forwared ⟨["r1", "r2"], 1⟩ = (⟨["r1", "r2"], 1⟩, none) ∧
    Request.forwared ⟨["r1", "r2"], 0⟩ =
      (⟨["r1", "r2"], 1⟩, some (NavAction.replace "r2")) := by
  decide

/-- C8: `frag.start` never assigns `true` to `isRouting`, so after a first
call the flag is still `false` and a second call is not a no-op: it performs
another immediate dispatch (the history holds two entries afterwards) and
assigns `window.onhashchange` a second time. -/
theorem c8_start_eval :
    (start "" tbl8 initialModule).1.isRouting = false ∧
    (start "" (start "" tbl8 initialModule).2.1 (start "" tbl8 initialModule).1).2.2.isSome
      = true ∧
    (start "" (start "" tbl8 initialModule).2.1 (start "" tbl8 initialModule).1).1.hist.history
      = ["", ""] ∧
    (start "" (start "" tbl8 initialModule).2.1 (start "" tbl8 initialModule).1).1.listenerInstalls
      = 2 := by
  decide

/-- C9: middleware chain contract (modelled from the spec; the chain is
absent from src/frag.js): `addMiddleware` appends callable input and
silently ignores non-callable input; when every registered middleware passes
no error to its continuation, all of them run in registration order and the
route is then resolved and its handler invoked; when one passes an error,
the middleware after it and the handler are never invoked. -/
theorem c9_middleware :
    (∀ chain id e, addMiddleware (MWVal.fn id e) chain = chain ++ [(id, e)]) ∧
    (∀ chain, addMiddleware MWVal.nonCallable chain = chain) ∧
    (∀ chain wh handlers st, (∀ p ∈ chain, p.2 = none) →
      dispatchWithMW chain wh handlers st =
        (chain.map Prod.fst, some (handleRoute wh (extractPath "" wh) handlers st))) ∧
    (∀ pre id err post wh handlers st, (∀ p ∈ pre, p.2 = none) →
      dispatchWithMW (pre ++ (id, some err) :: post) wh handlers st =
        (pre.map Prod.fst ++ [id], none)) := by
  refine ⟨fun _ _ _ => rfl, fun _ => rfl, ?_, ?_⟩
  · intro chain wh handlers st h
    simp [dispatchWithMW, runChain_all_ok chain h]
  · intro pre id err post wh handlers st h
    simp [dispatchWithMW, runChain_abort pre id err post h]

theorem c9_middleware_witness :
    (∀ p ∈ [((1 : Nat), (none : Option String)), (2, none)], p.2 = none) ∧
    dispatchWithMW [(1, none), (2, none)] "x" (some tbl3) hist0 =
      ([1, 2], some (handleRoute "x" (extractPath "" "x") (some tbl3) hist0)) :=
  ⟨by decide,
   c9_middleware.2.2.1 [(1, none), (2, none)] "x" (some tbl3) hist0 (by decide)⟩

/-- C10: `go(location, params, hide)` writes the fragment
`location + "/" + params.join("/")` — so with `params` empty or omitted the
fragment always carries a trailing slash (`go("about")` navigates to
`"about/"`) — using the hidden `replace` navigation exactly when the
effective hide flag is truthy and the visible `assign` push otherwise; a
non-array second argument is reinterpreted as the hide flag with the
parameter list defaulting to empty. -/
theorem c10_go_semantics (location : String) (xs : List String) (hide t : Bool) :
    (Request.go location (GoSecondArg.arr xs) hide).fragment =
      location ++ "/" ++ joinSlash xs ∧
    (Request.go location (GoSecondArg.arr xs) hide).isReplace = hide ∧
    (Request.go location (GoSecondArg.nonArray t) hide).fragment = location ++ "/" ∧
    (Request.go location (GoSecondArg.nonArray t) hide).isReplace = t ∧
    Request.go "about" (GoSecondArg.nonArray false) false = NavAction.assign "about/" := by
  refine ⟨?_, ?_, ?_, ?_, by decide⟩
  · cases hide <;> rfl
  · cases hide <;> rfl
  · cases t <;>
      simp [Request.go, NavAction.fragment, joinSlash, String.append_empty]
  · cases t <;> rfl
